import Mathlib

/-!
# MOS_V2_Backend — formal verification of the natural-language specification

Shallow embedding (in Lean 4) of the parts of the repository that the frozen
claims C1–C10 are about, together with theorems settling each claim.

Byte strings are modelled as `List Nat` with every element `< 256`; hex strings
of even length are modelled by their byte lists (all hex-level slices taken by
the source fall on even character positions, so character index `2*i` maps to
byte index `i`).  Python slice semantics (clamping, negative indices) are
reproduced by `pySlice`.  `Crypto.Cipher.AES` (AES-256, CTR mode) and
`hashlib.sha256` are embedded as executable reference implementations and
validated against their published test vectors below.
-/

set_option maxRecDepth 100000

/-- Truncate to a 32-bit word, as Python's fixed-width arithmetic inside
`hashlib`'s SHA-256 (all SHA-256 word operations are mod 2^32). -/
def w32 (n : Nat) : Nat := n % 4294967296

/-- 32-bit right rotation. -/
def rotr32 (k n : Nat) : Nat := w32 ((n >>> k) ||| (n <<< (32 - k)))

/-- Big-endian interpretation of a byte list, `int.from_bytes(l, "big")`. -/
def natFromBytesBE (l : List Nat) : Nat := l.foldl (fun a b => a * 256 + b) 0

/-- Little-endian interpretation of a byte list, `int.from_bytes(l, "little")`. -/
def natFromBytesLE (l : List Nat) : Nat := l.foldr (fun b a => b + 256 * a) 0

/-- `n.to_bytes(k, "big")` (truncating above `2^(8*k)`). -/
def natToBytesBE (k n : Nat) : List Nat :=
  (List.range k).map (fun i => (n >>> (8 * (k - 1 - i))) % 256)

/-- Normalisation of a Python slice bound against a list of length `n`:
negative indices count from the end and out-of-range bounds clamp. -/
def pyNorm (n : Nat) (i : Int) : Nat :=
  (min (max 0 (if i < 0 then (n : Int) + i else i)) n).toNat

/-- Python slice `l[a:b]` (step 1): never raises. -/
def pySlice (l : List α) (a b : Int) : List α :=
  (l.take (pyNorm l.length b)).drop (pyNorm l.length a)

/-- Python slice `l[a:]`. -/
def pySliceFrom (l : List α) (a : Int) : List α := pySlice l a l.length

/-- Python indexing `l[i]` for nonnegative `i`: raises `IndexError` when out of
range (modelled as `Except`). -/
def pyIndex (l : List Nat) (i : Nat) : Except String Nat :=
  if i < l.length then Except.ok (l.getD i 0) else Except.error "IndexError"

/-- Split a list into chunks of `n` (last chunk possibly shorter); `n = 0`
gives `[]`.  Fuel-based structural recursion so that it reduces in the kernel. -/
def chunkListAux (n : Nat) : Nat → List α → List (List α)
  | 0, _ => []
  | _ + 1, [] => []
  | fuel + 1, l =>
    if n == 0 then [] else l.take n :: chunkListAux n fuel (l.drop n)

def chunkList (n : Nat) (l : List α) : List (List α) := chunkListAux n l.length l

/-! ## SHA-256 (`hashlib.sha256`), reference implementation over byte lists -/

def sha256K : List Nat :=
  [1116352408, 1899447441, 3049323471, 3921009573, 961987163, 1508970993,
   2453635748, 2870763221, 3624381080, 310598401, 607225278, 1426881987,
   1925078388, 2162078206, 2614888103, 3248222580, 3835390401, 4022224774,
   264347078, 604807628, 770255983, 1249150122, 1555081692, 1996064986,
   2554220882, 2821834349, 2952996808, 3210313671, 3336571891, 3584528711,
   113926993, 338241895, 666307205, 773529912, 1294757372, 1396182291,
   1695183700, 1986661051, 2177026350, 2456956037, 2730485921, 2820302411,
   3259730800, 3345764771, 3516065817, 3600352804, 4094571909, 275423344,
   430227734, 506948616, 659060556, 883997877, 958139571, 1322822218,
   1537002063, 1747873779, 1955562222, 2024104815, 2227730452, 2361852424,
   2428436474, 2756734187, 3204031479, 3329325298]

def sha256H0 : List Nat :=
  [1779033703, 3144134277, 1013904242, 2773480762, 1359893119, 2600822924, 528734635, 1541459225]

/-- SHA-256 padding: append `0x80`, zeros, and the 64-bit big-endian bit length. -/
def sha256Pad (msg : List Nat) : List Nat :=
  let len := msg.length
  let k := (119 - (len % 64)) % 64
  msg ++ [0x80] ++ List.replicate k 0 ++ natToBytesBE 8 (8 * len)

/-- Extend 16 message words to the 64-word schedule. -/
def sha256Extend (ws : List Nat) : List Nat :=
  (List.range 48).foldl
    (fun acc _ =>
      let n := acc.length
      let g := fun i => acc.getD (n - i) 0
      let s0 := rotr32 7 (g 15) ^^^ rotr32 18 (g 15) ^^^ (g 15 >>> 3)
      let s1 := rotr32 17 (g 2) ^^^ rotr32 19 (g 2) ^^^ (g 2 >>> 10)
      acc ++ [w32 (g 16 + s0 + g 7 + s1)])
    ws

/-- One round of the SHA-256 compression function; the running state is the
list `[a,b,c,d,e,f,g,h]`. -/
def sha256Round (st : List Nat) (kw : Nat × Nat) : List Nat :=
  let a := st.getD 0 0
  let b := st.getD 1 0
  let c := st.getD 2 0
  let d := st.getD 3 0
  let e := st.getD 4 0
  let f := st.getD 5 0
  let g := st.getD 6 0
  let h := st.getD 7 0
  let s1 := rotr32 6 e ^^^ rotr32 11 e ^^^ rotr32 25 e
  let ch := (e &&& f) ^^^ ((e ^^^ 4294967295) &&& g)
  let t1 := w32 (h + s1 + ch + kw.1 + kw.2)
  let s0 := rotr32 2 a ^^^ rotr32 13 a ^^^ rotr32 22 a
  let maj := (a &&& b) ^^^ (a &&& c) ^^^ (b &&& c)
  let t2 := w32 (s0 + maj)
  [w32 (t1 + t2), a, b, c, w32 (d + t1), e, f, g]

/-- Compress one 64-byte chunk into the hash state (8 words). -/
def sha256Chunk (hs : List Nat) (chunk : List Nat) : List Nat :=
  let ws := sha256Extend ((chunkList 4 chunk).map natFromBytesBE)
  let st := (sha256K.zip ws).foldl sha256Round hs
  List.zipWith (fun x y => w32 (x + y)) hs st

/-- `hashlib.sha256(msg).digest()` as a 32-byte list. -/
def sha256 (msg : List Nat) : List Nat :=
  ((chunkList 64 (sha256Pad msg)).foldl sha256Chunk sha256H0).flatMap (natToBytesBE 4)

/-- Validation: NIST test vector, SHA-256 of `"abc"`. -/
theorem sha256_nist_abc :
    sha256 [0x61, 0x62, 0x63] =
      [0xba, 0x78, 0x16, 0xbf, 0x8f, 0x01, 0xcf, 0xea, 0x41, 0x41, 0x40, 0xde, 0x5d, 0xae, 0x22, 0x23,
       0xb0, 0x03, 0x61, 0xa3, 0x96, 0x17, 0x7a, 0x9c, 0xb4, 0x10, 0xff, 0x61, 0xf2, 0x00, 0x15, 0xad] := by
  decide

/-- Validation: SHA-256 of the empty message. -/
theorem sha256_nist_empty :
    sha256 [] =
      [0xe3, 0xb0, 0xc4, 0x42, 0x98, 0xfc, 0x1c, 0x14, 0x9a, 0xfb, 0xf4, 0xc8, 0x99, 0x6f, 0xb9, 0x24,
       0x27, 0xae, 0x41, 0xe4, 0x64, 0x9b, 0x93, 0x4c, 0xa4, 0x95, 0x99, 0x1b, 0x78, 0x52, 0xb8, 0x55] := by
  decide

/-! ## AES-256 (`Crypto.Cipher.AES`, `MODE_CTR`), reference implementation -/

/-- The AES S-box (FIPS-197, figure 7). -/
def aesSbox : List Nat :=
  [0x63, 0x7c, 0x77, 0x7b, 0xf2, 0x6b, 0x6f, 0xc5, 0x30, 0x01, 0x67, 0x2b, 0xfe, 0xd7, 0xab, 0x76,
   0xca, 0x82, 0xc9, 0x7d, 0xfa, 0x59, 0x47, 0xf0, 0xad, 0xd4, 0xa2, 0xaf, 0x9c, 0xa4, 0x72, 0xc0,
   0xb7, 0xfd, 0x93, 0x26, 0x36, 0x3f, 0xf7, 0xcc, 0x34, 0xa5, 0xe5, 0xf1, 0x71, 0xd8, 0x31, 0x15,
   0x04, 0xc7, 0x23, 0xc3, 0x18, 0x96, 0x05, 0x9a, 0x07, 0x12, 0x80, 0xe2, 0xeb, 0x27, 0xb2, 0x75,
   0x09, 0x83, 0x2c, 0x1a, 0x1b, 0x6e, 0x5a, 0xa0, 0x52, 0x3b, 0xd6, 0xb3, 0x29, 0xe3, 0x2f, 0x84,
   0x53, 0xd1, 0x00, 0xed, 0x20, 0xfc, 0xb1, 0x5b, 0x6a, 0xcb, 0xbe, 0x39, 0x4a, 0x4c, 0x58, 0xcf,
   0xd0, 0xef, 0xaa, 0xfb, 0x43, 0x4d, 0x33, 0x85, 0x45, 0xf9, 0x02, 0x7f, 0x50, 0x3c, 0x9f, 0xa8,
   0x51, 0xa3, 0x40, 0x8f, 0x92, 0x9d, 0x38, 0xf5, 0xbc, 0xb6, 0xda, 0x21, 0x10, 0xff, 0xf3, 0xd2,
   0xcd, 0x0c, 0x13, 0xec, 0x5f, 0x97, 0x44, 0x17, 0xc4, 0xa7, 0x7e, 0x3d, 0x64, 0x5d, 0x19, 0x73,
   0x60, 0x81, 0x4f, 0xdc, 0x22, 0x2a, 0x90, 0x88, 0x46, 0xee, 0xb8, 0x14, 0xde, 0x5e, 0x0b, 0xdb,
   0xe0, 0x32, 0x3a, 0x0a, 0x49, 0x06, 0x24, 0x5c, 0xc2, 0xd3, 0xac, 0x62, 0x91, 0x95, 0xe4, 0x79,
   0xe7, 0xc8, 0x37, 0x6d, 0x8d, 0xd5, 0x4e, 0xa9, 0x6c, 0x56, 0xf4, 0xea, 0x65, 0x7a, 0xae, 0x08,
   0xba, 0x78, 0x25, 0x2e, 0x1c, 0xa6, 0xb4, 0xc6, 0xe8, 0xdd, 0x74, 0x1f, 0x4b, 0xbd, 0x8b, 0x8a,
   0x70, 0x3e, 0xb5, 0x66, 0x48, 0x03, 0xf6, 0x0e, 0x61, 0x35, 0x57, 0xb9, 0x86, 0xc1, 0x1d, 0x9e,
   0xe1, 0xf8, 0x98, 0x11, 0x69, 0xd9, 0x8e, 0x94, 0x9b, 0x1e, 0x87, 0xe9, 0xce, 0x55, 0x28, 0xdf,
   0x8c, 0xa1, 0x89, 0x0d, 0xbf, 0xe6, 0x42, 0x68, 0x41, 0x99, 0x2d, 0x0f, 0xb0, 0x54, 0xbb, 0x16]

def sboxAt (b : Nat) : Nat := aesSbox.getD b 0

/-- Round constants (index `i/Nk`, 1-based as in FIPS-197). -/
def rconAt (i : Nat) : Nat := [0, 1, 2, 4, 8, 16, 32, 64, 128, 27, 54].getD i 0

def subWord (w : List Nat) : List Nat := w.map sboxAt

def rotWord (w : List Nat) : List Nat := w.drop 1 ++ w.take 1

/-- AES-256 key expansion: 32 key bytes to 60 four-byte round-key words. -/
def keyExpansion (key : List Nat) : List (List Nat) :=
  (List.range 52).foldl
    (fun acc _ =>
      let i := acc.length
      let prev := acc.getD (i - 1) []
      let temp :=
        if i % 8 == 0 then
          match subWord (rotWord prev) with
          | t0 :: rest => (t0 ^^^ rconAt (i / 8)) :: rest
          | [] => []
        else if i % 8 == 4 then subWord prev
        else prev
      acc ++ [List.zipWith (fun a b => a ^^^ b) (acc.getD (i - 8) []) temp])
    (chunkList 4 key)

/-- XOR the state (16 bytes, column-major: index `r + 4*c`) with 4 round-key
words. -/
def addRoundKey (s : List Nat) (w4 : List (List Nat)) : List Nat :=
  (List.range 16).map (fun i => s.getD i 0 ^^^ (w4.getD (i / 4) []).getD (i % 4) 0)

def subBytes (s : List Nat) : List Nat := s.map sboxAt

def shiftRows (s : List Nat) : List Nat :=
  (List.range 16).map (fun i =>
    let r := i % 4
    let c := i / 4
    s.getD (r + 4 * ((c + r) % 4)) 0)

/-- Multiplication by x in GF(2^8) with the AES polynomial. -/
def xtime (b : Nat) : Nat := if b < 128 then 2 * b else (2 * b - 256) ^^^ 27

def mixColumns (s : List Nat) : List Nat :=
  (chunkList 4 s).flatMap (fun col =>
    let a0 := col.getD 0 0
    let a1 := col.getD 1 0
    let a2 := col.getD 2 0
    let a3 := col.getD 3 0
    let x3 := fun b => xtime b ^^^ b
    [xtime a0 ^^^ x3 a1 ^^^ a2 ^^^ a3,
     a0 ^^^ xtime a1 ^^^ x3 a2 ^^^ a3,
     a0 ^^^ a1 ^^^ xtime a2 ^^^ x3 a3,
     x3 a0 ^^^ a1 ^^^ a2 ^^^ xtime a3])

/-- AES-256 single-block encryption (14 rounds). -/
def aesEncryptBlock (key block : List Nat) : List Nat :=
  let w := keyExpansion key
  let wr := fun r => (w.drop (4 * r)).take 4
  let s0 := addRoundKey block (wr 0)
  let s :=
    (List.range 13).foldl
      (fun s r => addRoundKey (mixColumns (shiftRows (subBytes s))) (wr (r + 1))) s0
  addRoundKey (shiftRows (subBytes s)) (wr 14)

/-- AES-256-CTR keystream application with a full 128-bit initial counter
(`AES.new(key, AES.MODE_CTR, nonce=b"", initial_value=init_val)`); encryption
and decryption are the same operation. -/
def aesCtrProcessAux (key : List Nat) : Nat → Nat → List Nat → List Nat
  | _, 0, _ => []
  | _, _ + 1, [] => []
  | ctr, fuel + 1, data =>
    let ks := aesEncryptBlock key (natToBytesBE 16 (ctr % 340282366920938463463374607431768211456))
    List.zipWith (fun a b => a ^^^ b) (data.take 16) ks ++
      aesCtrProcessAux key (ctr + 1) fuel (data.drop 16)

def aesCtrProcess (key : List Nat) (initVal : Nat) (data : List Nat) : List Nat :=
  aesCtrProcessAux key initVal data.length data

/-- Validation: FIPS-197 appendix C.3 AES-256 test vector. -/
theorem aes256_fips_c3 :
    aesEncryptBlock
      [0x00, 0x01, 0x02, 0x03, 0x04, 0x05, 0x06, 0x07, 0x08, 0x09, 0x0a, 0x0b, 0x0c, 0x0d, 0x0e, 0x0f,
       0x10, 0x11, 0x12, 0x13, 0x14, 0x15, 0x16, 0x17, 0x18, 0x19, 0x1a, 0x1b, 0x1c, 0x1d, 0x1e, 0x1f]
      [0x00, 0x11, 0x22, 0x33, 0x44, 0x55, 0x66, 0x77, 0x88, 0x99, 0xaa, 0xbb, 0xcc, 0xdd, 0xee, 0xff] =
      [0x8e, 0xa2, 0xb7, 0xca, 0x51, 0x67, 0x45, 0xbf, 0xea, 0xfc, 0x49, 0x90, 0x4b, 0x49, 0x60, 0x89] := by
  decide

/-! ## Frame codec: `app/encryption.py` and `app/decryption_tm.py`

Frames are modelled by their byte lists.  The source functions take hex
strings; every character slice they perform (`[0:8]`, `[-66:-2]`, `[-2:]`,
`[8:-66]`) falls on even character boundaries, so the byte-level slices below
(`[0:4]`, `[-33:-1]`, `[-1:]`, `[4:-33]`) are exact.  `KEY_HEX` in
`encryption.py` equals `KEY0_HEX` in `decryption_tm.py`. -/

/-- `KEY0_HEX` (also `encryption.py`'s `KEY_HEX`) as bytes. -/
def KEY0 : List Nat :=
  [0x75, 0x42, 0x72, 0x40, 0x77, 0x53, 0x44, 0x6f, 0x54, 0x2d, 0x5f, 0x6a, 0x4c, 0x74, 0x51, 0x5e,
   0x4e, 0x24, 0x36, 0x30, 0x41, 0x33, 0x35, 0x55, 0x50, 0x4f, 0x4d, 0x77, 0x54, 0x3d, 0x57, 0x74]

/-- `KEY1_HEX` as bytes. -/
def KEY1 : List Nat :=
  [0x55, 0x24, 0x51, 0x67, 0x5E, 0x6F, 0x5E, 0x67, 0x71, 0x45, 0x6C, 0x53, 0x5E, 0x78, 0x65, 0x26,
   0x65, 0x51, 0x78, 0x50, 0x62, 0x33, 0x65, 0x72, 0x36, 0x43, 0x26, 0x47, 0x68, 0x26, 0x6A, 0x6D]

/-- The nonce derivation inlined in `encrypt_frame` (lines 17–54 of
`encryption.py`), factored out: TC offsets (src 12, dest 13, TC ID 15–16);
SEQ bytes reversed (LE → BE) and tested for parity to pick the digest half. -/
def deriveTcNonce (payload : List Nat) : List Nat :=
  let timestamp := pySlice payload 3 7
  let seq := pySlice payload 7 9
  let satId := pySlice payload 9 10
  let srcId := pySlice payload 12 13
  let destId := pySlice payload 13 14
  let tcId := pySlice payload 15 17
  let nonceInput := timestamp ++ seq ++ srcId ++ [0] ++ destId ++ [0] ++ tcId ++ satId ++ [0]
  let digest := sha256 nonceInput
  let seqVal := natFromBytesBE seq.reverse
  if seqVal % 2 == 0 then pySlice digest 0 16 else pySliceFrom digest 16

/-- `encryption.py: encrypt_frame` with the compiled-in key abstracted as a
parameter (the source fixes `key = bytes.fromhex(KEY_HEX)`; `encrypt_frame`
below instantiates the parameter accordingly).  TC frame layout: data starts
at payload offset 21, the two length bytes are at offsets 19–20 (LE). -/
def encryptFrameWithKey (key frame : List Nat) : List Nat :=
  let csp := pySlice frame 0 4
  let hmac := pySlice frame (-33) (-1)
  let eof := pySliceFrom frame (-1)
  let payload := pySlice frame 4 (-33)
  let tcLen := natFromBytesLE (pySlice payload 19 21)
  let crcIndex := 21 + tcLen
  let encryptRegion := pySlice payload 21 ((crcIndex : Int) + 1)
  let encrypted := aesCtrProcess key (natFromBytesBE (deriveTcNonce payload)) encryptRegion
  csp ++ (pySlice payload 0 21 ++ encrypted ++ pySliceFrom payload ((crcIndex : Int) + 1)) ++ hmac ++ eof

/-- `encryption.py: encrypt_frame` — always uses `KEY_HEX = KEY0_HEX`. -/
def encrypt_frame (frame : List Nat) : List Nat := encryptFrameWithKey KEY0 frame

/-- `decryption_tm.py: _derive_tm_nonce` (TM offsets: src 11, dest 12,
TM ID 14–15). -/
def deriveTmNonce (payload : List Nat) : List Nat :=
  let timestamp := pySlice payload 3 7
  let seq := pySlice payload 7 9
  let satId := pySlice payload 9 10
  let srcId := pySlice payload 11 12
  let destId := pySlice payload 12 13
  let tmId := pySlice payload 14 16
  let nonceInput := timestamp ++ seq ++ srcId ++ [0] ++ destId ++ [0] ++ tmId ++ satId ++ [0]
  let digest := sha256 nonceInput
  let seqVal := natFromBytesBE seq.reverse
  if seqVal % 2 == 0 then pySlice digest 0 16 else pySliceFrom digest 16

/-- The decryption performed by `decrypt_tm_frame` once the key to use is
settled (bounds check, TM region, nonce, CTR, reassembly).  This is also the
spec-side comparison point for the key-selection claim C2. -/
def decryptTmCore (keyToUse frame : List Nat) : Except String (List Nat) :=
  let csp := pySlice frame 0 4
  let hmac := pySlice frame (-33) (-1)
  let eof := pySliceFrom frame (-1)
  let payload := pySlice frame 4 (-33)
  let tmLen := natFromBytesLE (pySlice payload 20 22)
  let crcIndex := 22 + tmLen
  if payload.length ≤ crcIndex then Except.error "TM length points outside payload"
  else
    let encryptedRegion := pySlice payload 22 ((crcIndex : Int) + 1)
    let decrypted := aesCtrProcess keyToUse (natFromBytesBE (deriveTmNonce payload)) encryptedRegion
    Except.ok (csp ++ (pySlice payload 0 22 ++ decrypted ++ pySliceFrom payload ((crcIndex : Int) + 1)) ++ hmac ++ eof)

/-- `decryption_tm.py: decrypt_tm_frame(frame_hex, key_hex)`.  When the caller
passes the default key (`key_hex == KEY_HEX`), the key is selected from the
extended-header-data byte (payload offset 17): 0 → K0, 1 → K1, other → K0.
An explicitly different key overrides the selection.  The source's bounds
check (`crc_index >= len(payload)`) runs before the key selection, which is
why the selection sits inside `decryptTmCore`'s success branch here; reading
`payload[17]` is Python indexing and may raise `IndexError`, but only after
the bounds check has already ensured `len(payload) > crc_index ≥ 22`. -/
def decryptTmFrameWithKey (keyHex frame : List Nat) : Except String (List Nat) :=
  let payload := pySlice frame 4 (-33)
  let tmLen := natFromBytesLE (pySlice payload 20 22)
  let crcIndex := 22 + tmLen
  if payload.length ≤ crcIndex then Except.error "TM length points outside payload"
  else
    match (if keyHex = KEY0 then
            (pyIndex payload 17).map (fun e => if e = 0 then KEY0 else if e = 1 then KEY1 else KEY0)
           else Except.ok keyHex) with
    | Except.error s => Except.error s
    | Except.ok keyToUse => decryptTmCore keyToUse frame

/-- `decrypt_tm_frame` with its default key argument (`KEY_HEX = KEY0_HEX`). -/
def decrypt_tm_frame (frame : List Nat) : Except String (List Nat) :=
  decryptTmFrameWithKey KEY0 frame

/-- The example frame: CSP `98BA7600`, TC payload with SEQ = 2 (even),
EXT_HDR_LEN = EXT_HDR_DATA = 1, `LEN = 2`, TC data `00 04`, CRC `00`,
32 AUTH bytes `EE`, EOF `7E` — 61 bytes in all. -/
def exampleFrame : List Nat :=
  [0x98, 0xBA, 0x76, 0x00] ++
  [0x01, 0x02, 0x03, 0x11, 0x22, 0x33, 0x44, 0x02, 0x00, 0x05, 0x06, 0x07,
   0x08, 0x09, 0x0A, 0x0B, 0x0C, 0x01, 0x01, 0x02, 0x00, 0x00, 0x04, 0x00] ++
  List.replicate 32 0xEE ++ [0x7E]

/-- Validation: `encrypt_frame` on the example frame, cross-checked against
an independent implementation of the source algorithm (the three encrypted
bytes `00 04 00 → 11 fd 13`; everything else untouched). -/
theorem encrypt_frame_example :
    encrypt_frame exampleFrame =
      [0x98, 0xBA, 0x76, 0x00] ++
      [0x01, 0x02, 0x03, 0x11, 0x22, 0x33, 0x44, 0x02, 0x00, 0x05, 0x06, 0x07,
       0x08, 0x09, 0x0A, 0x0B, 0x0C, 0x01, 0x01, 0x02, 0x00, 0x11, 0xFD, 0x13] ++
      List.replicate 32 0xEE ++ [0x7E] := by
  decide

/-! ## Length lemmas for the codec -/

lemma pyNorm_le (n : Nat) (i : Int) : pyNorm n i ≤ n := by
  unfold pyNorm; split <;> omega

lemma int_natCast_not_neg (m : Nat) : ¬((m : Int) < 0) := by omega

lemma int_natCast_succ_not_neg (m : Nat) : ¬((m : Int) + 1 < 0) := by omega

lemma pySlice_length (l : List α) (a b : Int) :
    (pySlice l a b).length = pyNorm l.length b - pyNorm l.length a := by
  have hb := pyNorm_le l.length b
  simp [pySlice, List.length_drop, List.length_take]
  omega

lemma aesEncryptBlock_length (key block : List Nat) :
    (aesEncryptBlock key block).length = 16 := by
  simp [aesEncryptBlock, addRoundKey]

lemma aesCtrProcessAux_length (key : List Nat) :
    ∀ (fuel : Nat) (ctr : Nat) (data : List Nat), data.length ≤ fuel →
      (aesCtrProcessAux key ctr fuel data).length = data.length := by
  intro fuel
  induction fuel with
  | zero =>
    intro ctr data h
    have : data = [] := List.eq_nil_of_length_eq_zero (by omega)
    subst this; rfl
  | succ n ih =>
    intro ctr data h
    match data with
    | [] => rfl
    | x :: xs =>
      have hlen : (x :: xs).length ≤ n + 1 := h
      simp only [aesCtrProcessAux, List.length_append, List.length_zipWith,
        List.length_take, aesEncryptBlock_length]
      rw [ih (ctr + 1) ((x :: xs).drop 16)
        (by simp only [List.length_drop, List.length_cons] at hlen ⊢; omega)]
      simp only [List.length_drop, List.length_cons] at hlen ⊢
      omega

lemma aesCtrProcess_length (key : List Nat) (iv : Nat) (data : List Nat) :
    (aesCtrProcess key iv data).length = data.length :=
  aesCtrProcessAux_length key data.length iv data (Nat.le_refl _)

/-! ## Claim C1 -/

/-- C1 (counterexample): the claim `decrypt(encrypt(F)) == F` is false on the
61-byte example frame.  `encrypt_frame` encrypts with the TC layout (data at
payload offset 21, length at 19–20) while `decrypt_tm_frame` reads the TM
layout (data at 22, length at 20–21), so decryption reads its length partly
from ciphertext and here even fails with the TM-length bounds error. -/
theorem C1_roundtrip_counterexample :
    decrypt_tm_frame (encrypt_frame exampleFrame) ≠ Except.ok exampleFrame ∧
    decrypt_tm_frame (encrypt_frame exampleFrame) =
      Except.error "TM length points outside payload" := by
  have h : decrypt_tm_frame (encrypt_frame exampleFrame) =
      Except.error "TM length points outside payload" := by rfl
  exact ⟨by rw [h]; intro hc; exact Except.noConfusion hc, h⟩

/-- C1 (amended): for every frame with at least the fixed overhead present
(4-byte CSP + 32-byte AUTH + 1-byte EOF = 37 bytes), `encrypt_frame`
preserves the frame length.  The round-trip half of the claim is false
(`C1_roundtrip_counterexample`): `encrypt_frame` (TC layout) and
`decrypt_tm_frame` (TM layout) are not mutual inverses. -/
theorem C1_encrypt_preserves_length (frame : List Nat) (h : 37 ≤ frame.length) :
    (encrypt_frame frame).length = frame.length := by
  simp only [encrypt_frame, encryptFrameWithKey, pySliceFrom, List.length_append,
    pySlice_length, aesCtrProcess_length]
  unfold pyNorm
  split_ifs <;> omega

/-- Witness for `C1_encrypt_preserves_length` at the example frame. -/
theorem C1_encrypt_preserves_length_witness :
    37 ≤ exampleFrame.length ∧ (encrypt_frame exampleFrame).length = exampleFrame.length :=
  ⟨by decide, C1_encrypt_preserves_length exampleFrame (by decide)⟩

/-! ## Claim C2 -/

/-- C2 (counterexample): the example frame's EXT_HDR_DATA byte is 1 (both at
the TM offset 17 and at the TC offset 18 of the payload), yet `encrypt_frame`
does not encrypt with K1: its output differs from the K1 encryption of the
same frame (the source compiles in only `KEY_HEX = KEY0_HEX` on the
encryption side). -/
theorem C2_encrypt_key_counterexample :
    (pySlice exampleFrame 4 (-33)).getD 17 0 = 1 ∧
    (pySlice exampleFrame 4 (-33)).getD 18 0 = 1 ∧
    encrypt_frame exampleFrame ≠ encryptFrameWithKey KEY1 exampleFrame :=
  ⟨by decide, by decide, by decide⟩

/-- C2 (amended): `decrypt_tm_frame` (with its default key argument) selects
K1 exactly when the payload's extended-header-data byte (offset 17) equals 1
and K0 otherwise, while `encrypt_frame` performs no key selection at all and
always encrypts with K0 (and K0 ≠ K1, so the choice matters). -/
theorem C2_key_selection (frame : List Nat) :
    decrypt_tm_frame frame =
      decryptTmCore (if (pySlice frame 4 (-33)).getD 17 0 = 1 then KEY1 else KEY0) frame ∧
    encrypt_frame frame = encryptFrameWithKey KEY0 frame ∧ KEY0 ≠ KEY1 := by
  refine ⟨?_, rfl, by decide⟩
  unfold decrypt_tm_frame decryptTmFrameWithKey pyIndex
  simp only [eq_self_iff_true, if_true]
  split
  case isTrue h =>
    simp only [decryptTmCore]
    rw [if_pos h]
  case isFalse h =>
    rw [if_pos (show 17 < (pySlice frame 4 (-33)).length by omega)]
    simp only [Except.map, List.getD]
    by_cases h0 : (pySlice frame 4 (-33))[17]?.getD 0 = 0 <;>
      by_cases h1 : (pySlice frame 4 (-33))[17]?.getD 0 = 1 <;>
      simp [h0, h1]

/-! ## `app/stats.py` — station/topic counters

The Python dict `counters[(station_id, topic)]` is modelled as a function
`String × String → Option CounterRec` (`none` = key absent).  `snapshot`
returning fresh `dict(...)` copies is, in this pure model, the fact that the
snapshot is computed by value from the state and computing it does not change
the state. -/

def LOGICAL_TOPICS : List String :=
  ["cosmos/command", "cosmos/telemetry", "SatOS/uplink", "SatOS/downlink"]

structure CounterRec where
  rx_msgs : Nat
  rx_bytes : Nat
  tx_msgs : Nat
  tx_bytes : Nat
deriving DecidableEq, Repr

/-- `_zero()` in `stats.py`. -/
def zeroCounter : CounterRec := ⟨0, 0, 0, 0⟩

def StatsState : Type := String × String → Option CounterRec

/-- The counter increment applied by `Stats.bump` (rx vs any other
direction). -/
def bumpCounter (c : CounterRec) (direction : String) (byteCnt : Nat) : CounterRec :=
  if direction = "rx"
  then { c with rx_msgs := c.rx_msgs + 1, rx_bytes := c.rx_bytes + byteCnt }
  else { c with tx_msgs := c.tx_msgs + 1, tx_bytes := c.tx_bytes + byteCnt }

/-- `Stats.bump`: returns the new counter state.  Unknown logical topics are
ignored; otherwise `_ensure` (`setdefault`) materialises a zero entry and the
matching direction counters are incremented. -/
def statsBump (st : StatsState) (stationId topic direction : String) (byteCnt : Nat) :
    StatsState :=
  if topic ∉ LOGICAL_TOPICS then st
  else fun k =>
    if k = (stationId, topic)
    then some (bumpCounter ((st (stationId, topic)).getD zeroCounter) direction byteCnt)
    else st k

/-- `Stats.snapshot(station_id)` (the single-station branch): one entry per
logical topic, zeroed when the pair was never bumped. -/
def statsSnapshotStation (st : StatsState) (stationId : String) :
    List (String × CounterRec) :=
  LOGICAL_TOPICS.map (fun t => (t, (st (stationId, t)).getD zeroCounter))

/-! ## Claim C10 -/

/-- C10: `Stats.bump` with a topic outside the four logical topics leaves the
state unchanged; with a logical topic it equals a pointwise update of exactly
the `(station, topic)` entry (all other entries untouched); and
`Stats.snapshot(station)` lists exactly the four logical topics, each entry
being the stored counters or zeros when the pair was never bumped. -/
theorem C10_stats_bump_snapshot (st : StatsState) (s t d : String) (n : Nat) :
    statsBump st s t d n =
      (if t ∈ LOGICAL_TOPICS
       then Function.update st (s, t)
         (some (bumpCounter ((st (s, t)).getD zeroCounter) d n))
       else st) ∧
    (statsSnapshotStation st s).map Prod.fst = LOGICAL_TOPICS ∧
    ∀ p ∈ statsSnapshotStation st s, p.2 = (st (s, p.1)).getD zeroCounter := by
  refine ⟨?_, ?_, ?_⟩
  · by_cases hm : t ∈ LOGICAL_TOPICS
    · funext k
      simp [statsBump, hm, Function.update_apply]
    · simp [statsBump, hm]
  · unfold statsSnapshotStation
    rw [List.map_map]
    simp [Function.comp_def]
  · intro p hp
    simp only [statsSnapshotStation, List.mem_map] at hp
    obtain ⟨t', _ht', rfl⟩ := hp
    simp

/-! ## Binary decoder values

`health_decoders/HEALTH_ADCS_CSS_VECTOR.py` (claims C3, C4) and
`health_decoders/HEALTH_EPS_SES_TEMP.py` (claim C5).  Decoded cell values
(ints, scaled floats, UTC datetimes, nulls) are modelled by `PyVal`; floats
are modelled exactly by rationals.  `datetime.fromtimestamp(·, tz=utc)` is
total only for epochs in the representable datetime range
(years 1…9999, i.e. −62135596800 … 253402300799); outside it CPython raises,
which the model surfaces as an error. -/

inductive PyVal where
  | int (n : Int)
  | float (q : Rat)
  | dt (epoch : Int)
  | str (s : String)
  | none
deriving DecidableEq, Repr

abbrev Row := List (String × PyVal)

/-- `datetime.fromtimestamp(n, tz=timezone.utc)`. -/
def fromtimestampUTC (n : Int) : Except String PyVal :=
  if -62135596800 ≤ n ∧ n ≤ 253402300799 then Except.ok (PyVal.dt n)
  else Except.error "timestamp out of range"

/-- `int(·)` on a decoded value; in the decoders below it is only ever applied
to `PyVal.int` cells (`Number_of_Instances`), and `hdr.get(…, 0)` supplies the
default 0. -/
def pyIntOf : PyVal → Int
  | PyVal.int n => n
  | _ => 0

/-- The field types `_read_typed` supports in `HEALTH_ADCS_CSS_VECTOR.py`. -/
inductive FType where
  | u8 | u16le | u32le | i16le
deriving DecidableEq, Repr

/-- `ByteReader` typed reads (`struct.unpack` little-endian): value plus the
advanced reader position; reading past the end raises
`"Not enough bytes to read"`. -/
def readTyped (t : FType) (data : List Nat) (i : Nat) : Except String (Int × Nat) :=
  match t with
  | FType.u8 =>
    if i + 1 ≤ data.length then Except.ok ((data.getD i 0 : Int), i + 1)
    else Except.error "Not enough bytes to read"
  | FType.u16le =>
    if i + 2 ≤ data.length then
      Except.ok ((data.getD i 0 + 256 * data.getD (i + 1) 0 : Int), i + 2)
    else Except.error "Not enough bytes to read"
  | FType.u32le =>
    if i + 4 ≤ data.length then
      Except.ok ((data.getD i 0 + 256 * data.getD (i + 1) 0 + 65536 * data.getD (i + 2) 0 +
        16777216 * data.getD (i + 3) 0 : Int), i + 4)
    else Except.error "Not enough bytes to read"
  | FType.i16le =>
    if i + 2 ≤ data.length then
      let raw := data.getD i 0 + 256 * data.getD (i + 1) 0
      Except.ok ((if raw < 32768 then (raw : Int) else (raw : Int) - 65536), i + 2)
    else Except.error "Not enough bytes to read"

/-- One field descriptor of the CSS-vector spec (none of its fields carries a
`mapping`, so `_apply_mapping` is the identity throughout). -/
structure FieldSpec where
  name : String
  type : FType
  scale : Option Rat
  transform : Option String
deriving DecidableEq, Repr

/-- The per-field pipeline of `HEALTH_ADCS_CSS_VECTOR.py` in its source order:
`_apply_mapping` (identity — no field has a mapping) → `_apply_scale` →
`_apply_transform`.  The only transform in this file is
`EPOCH_TO_UTC_DATETIME` (`datetime.fromtimestamp(int(val), tz=utc)`); no CSS
field carries both a scale and a transform, so the transform only ever sees
the raw integer. -/
def applyCssPipeline (f : FieldSpec) (raw : Int) : Except String PyVal :=
  let scaled : PyVal :=
    match f.scale with
    | some q => PyVal.float (raw * q)
    | Option.none => PyVal.int raw
  match f.transform with
  | Option.none => Except.ok scaled
  | some t =>
    if t = "EPOCH_TO_UTC_DATETIME" then
      match scaled with
      | PyVal.int n => fromtimestampUTC n
      | _ => Except.error "int() of a non-integer value is not reachable in this spec"
    else Except.error "Unsupported transform"

/-- Read a list of fields in declared order, threading the reader position
(the body of the loops in `_parse_common_header` and `_decode_from_spec`). -/
def parseFields (fields : List FieldSpec) (data : List Nat) (i : Nat) :
    Except String (Row × Nat) :=
  match fields with
  | [] => Except.ok ([], i)
  | f :: rest =>
    match readTyped f.type data i with
    | Except.error e => Except.error e
    | Except.ok (raw, i') =>
      match applyCssPipeline f raw with
      | Except.error e => Except.error e
      | Except.ok v =>
        match parseFields rest data i' with
        | Except.error e => Except.error e
        | Except.ok (row, i'') => Except.ok ((f.name, v) :: row, i'')

/-- The `common_header` of the CSS-vector SPEC. -/
def cssHeaderFields : List FieldSpec :=
  [⟨"Submodule_ID", FType.u8, Option.none, Option.none⟩,
   ⟨"Queue_ID", FType.u8, Option.none, Option.none⟩,
   ⟨"Number_of_Instances", FType.u16le, Option.none, Option.none⟩]

/-- The repeating `segment` of the CSS-vector SPEC (`segment_len_bytes = 11`). -/
def cssSegmentFields : List FieldSpec :=
  [⟨"Operation_Status", FType.u8, Option.none, Option.none⟩,
   ⟨"Epoch_Time_Human", FType.u32le, Option.none, some "EPOCH_TO_UTC_DATETIME"⟩,
   ⟨"Sun_Vector_X", FType.i16le, some (1 / 1000), Option.none⟩,
   ⟨"Sun_Vector_Y", FType.i16le, some (1 / 1000), Option.none⟩,
   ⟨"Sun_Vector_Z", FType.i16le, some (1 / 1000), Option.none⟩]

/-- `_parse_common_header` for the CSS spec: `reader.skip(26)` (raises when
fewer than 26 bytes are present) followed by the three header fields. -/
def parseCommonHeaderCss (data : List Nat) : Except String (Row × Nat) :=
  if 26 ≤ data.length then parseFields cssHeaderFields data 26
  else Except.error "Not enough bytes to skip"

/-- The per-instance loop of `_decode_from_spec`: at most `k` further
iterations starting at reader position `i`; break when fewer than
`segment_len_bytes = 11` bytes remain; a failed segment parse resyncs the
reader to `start + 11` and continues (`except` branch); a successful parse
appends `dict(hdr)` updated with the segment fields.  (The
`consumed != seg_len` branch only prints a warning and keeps the row.) -/
def cssSegLoop (data : List Nat) (hdr : Row) : Nat → Nat → List Row
  | 0, _ => []
  | k + 1, i =>
    if data.length - i < 11 then []
    else
      match parseFields cssSegmentFields data i with
      | Except.ok (row, i') => (hdr ++ row) :: cssSegLoop data hdr k i'
      | Except.error _ => cssSegLoop data hdr k (i + 11)

/-- `_decode_from_spec(hex, SPEC)` after hex normalisation, for the CSS spec:
header failures are caught and give `[]`; `Number_of_Instances ≤ 0` gives
`[]`; otherwise the instance loop runs. -/
def cssDecodeBytes (data : List Nat) : List Row :=
  match parseCommonHeaderCss data with
  | Except.error _ => []
  | Except.ok (hdr, i0) =>
    let count := pyIntOf ((hdr.lookup "Number_of_Instances").getD (PyVal.int 0))
    if count ≤ 0 then []
    else cssSegLoop data hdr count.toNat i0

/-- `Number_of_Instances` as read by `_decode_from_spec` (0 whenever the
header cannot be parsed, in which case the decode result is `[]` anyway). -/
def cssNumInstances (data : List Nat) : Int :=
  match parseCommonHeaderCss data with
  | Except.ok (hdr, _) => pyIntOf ((hdr.lookup "Number_of_Instances").getD (PyVal.int 0))
  | Except.error _ => 0

/-- The whitespace stripping of `_normalize_hex`
(`.replace(" ","").replace("\n","").replace("\r","").replace("\t","")`). -/
def pyStripWs (s : List Char) : List Char :=
  s.filter (fun c => !(c == ' ' || c == '\n' || c == '\r' || c == '\t'))

def hexDigitVal (c : Char) : Option Nat :=
  if '0' ≤ c ∧ c ≤ '9' then some (c.toNat - '0'.toNat)
  else if 'a' ≤ c ∧ c ≤ 'f' then some (c.toNat - 'a'.toNat + 10)
  else if 'A' ≤ c ∧ c ≤ 'F' then some (c.toNat - 'A'.toNat + 10)
  else Option.none

/-- `bytes.fromhex` on an already-stripped string: consume hex digits two at a
time; a non-hex character raises `ValueError`. -/
def bytesFromHexPairs : List Char → Except String (List Nat)
  | [] => Except.ok []
  | [_] => Except.error "non-hexadecimal number"
  | c1 :: c2 :: rest =>
    match hexDigitVal c1, hexDigitVal c2 with
    | some h, some l =>
      match bytesFromHexPairs rest with
      | Except.ok bs => Except.ok ((16 * h + l) :: bs)
      | Except.error e => Except.error e
    | _, _ => Except.error "non-hexadecimal number"

/-- `_normalize_hex`: strip whitespace, reject an odd number of remaining
characters with `ValueError("Hex string has odd length …")`, then
`bytes.fromhex`. -/
def normalizeHex (s : List Char) : Except String (List Nat) :=
  if (pyStripWs s).length % 2 ≠ 0 then Except.error "Hex string has odd length"
  else bytesFromHexPairs (pyStripWs s)

/-- `HEALTH_ADCS_CSS_VECTOR(hex_str)` = `_decode_from_spec(hex_str, SPEC)`:
any `_normalize_hex` failure is caught (`[ERROR] Invalid hex input`) and the
function returns the empty row list. -/
def HEALTH_ADCS_CSS_VECTOR (s : List Char) : List Row :=
  match normalizeHex s with
  | Except.error _ => []
  | Except.ok data => cssDecodeBytes data

lemma getD_lt_256 (data : List Nat) (hb : ∀ b ∈ data, b < 256) (j : Nat)
    (hj : j < data.length) : data.getD j 0 < 256 := by
  have hmem : data.getD j 0 ∈ data := by
    rw [List.getD_eq_getElem data 0 hj]
    exact List.getElem_mem hj
  exact hb _ hmem

/-- The final reader position of a successful parse (0 on error). -/
def parseEnd (r : Except String (Row × Nat)) : Nat :=
  match r with
  | Except.ok (_, j) => j
  | Except.error _ => 0

lemma readTyped_u8 (data : List Nat) (i : Nat) (h : i + 1 ≤ data.length) :
    readTyped FType.u8 data i = Except.ok ((data.getD i 0 : Int), i + 1) := by
  simp [readTyped, h]

lemma readTyped_u32 (data : List Nat) (i : Nat) (h : i + 4 ≤ data.length) :
    readTyped FType.u32le data i =
      Except.ok ((data.getD i 0 : Int) + 256 * (data.getD (i + 1) 0 : Int) +
        65536 * (data.getD (i + 2) 0 : Int) + 16777216 * (data.getD (i + 3) 0 : Int), i + 4) := by
  simp [readTyped, h]

lemma readTyped_i16 (data : List Nat) (i : Nat) (h : i + 2 ≤ data.length) :
    readTyped FType.i16le data i =
      Except.ok ((if data.getD i 0 + 256 * data.getD (i + 1) 0 < 32768
        then (data.getD i 0 + 256 * data.getD (i + 1) 0 : Int)
        else (data.getD i 0 + 256 * data.getD (i + 1) 0 : Int) - 65536), i + 2) := by
  simp [readTyped, h]

lemma pipeline_plain (name : String) (ty : FType) (raw : Int) :
    applyCssPipeline ⟨name, ty, Option.none, Option.none⟩ raw =
      Except.ok (PyVal.int raw) := rfl

lemma pipeline_scale (name : String) (ty : FType) (q : Rat) (raw : Int) :
    applyCssPipeline ⟨name, ty, some q, Option.none⟩ raw =
      Except.ok (PyVal.float (raw * q)) := rfl

lemma pipeline_epoch (name : String) (ty : FType) (raw : Int)
    (h1 : -62135596800 ≤ raw) (h2 : raw ≤ 253402300799) :
    applyCssPipeline ⟨name, ty, Option.none, some "EPOCH_TO_UTC_DATETIME"⟩ raw =
      Except.ok (PyVal.dt raw) := by
  simp [applyCssPipeline, fromtimestampUTC, h1, h2]

lemma parseFields_cons (f : FieldSpec) (rest : List FieldSpec) (data : List Nat) (i : Nat)
    (raw : Int) (i' : Nat) (hr : readTyped f.type data i = Except.ok (raw, i'))
    (v : PyVal) (hv : applyCssPipeline f raw = Except.ok v) :
    parseFields (f :: rest) data i =
      match parseFields rest data i' with
      | Except.error e => Except.error e
      | Except.ok (row, i'') => Except.ok ((f.name, v) :: row, i'') := by
  simp [parseFields, hr, hv]

lemma cssSegment_parse_ok (data : List Nat) (hb : ∀ b ∈ data, b < 256) (i : Nat)
    (h11 : i + 11 ≤ data.length) :
    (parseFields cssSegmentFields data i).isOk = true ∧
    parseEnd (parseFields cssSegmentFields data i) = i + 11 := by
  have b1 := getD_lt_256 data hb (i + 1) (by omega)
  have b2 := getD_lt_256 data hb (i + 1 + 1) (by omega)
  have b3 := getD_lt_256 data hb (i + 1 + 2) (by omega)
  have b4 := getD_lt_256 data hb (i + 1 + 3) (by omega)
  have hep : applyCssPipeline ⟨"Epoch_Time_Human", FType.u32le, Option.none,
      some "EPOCH_TO_UTC_DATETIME"⟩
      ((data.getD (i + 1) 0 : Int) + 256 * (data.getD (i + 1 + 1) 0 : Int) +
        65536 * (data.getD (i + 1 + 2) 0 : Int) + 16777216 * (data.getD (i + 1 + 3) 0 : Int)) =
      Except.ok (PyVal.dt ((data.getD (i + 1) 0 : Int) + 256 * (data.getD (i + 1 + 1) 0 : Int) +
        65536 * (data.getD (i + 1 + 2) 0 : Int) + 16777216 * (data.getD (i + 1 + 3) 0 : Int))) :=
    pipeline_epoch _ _ _ (by omega) (by omega)
  simp only [cssSegmentFields]
  rw [parseFields_cons _ _ _ _ _ _ (readTyped_u8 data i (by omega)) _ (pipeline_plain _ _ _)]
  rw [parseFields_cons _ _ _ _ _ _ (readTyped_u32 data (i + 1) (by omega)) _ hep]
  rw [parseFields_cons _ _ _ _ _ _ (readTyped_i16 data (i + 1 + 4) (by omega)) _ (pipeline_scale _ _ _ _)]
  rw [parseFields_cons _ _ _ _ _ _ (readTyped_i16 data (i + 1 + 4 + 2) (by omega)) _ (pipeline_scale _ _ _ _)]
  rw [parseFields_cons _ _ _ _ _ _ (readTyped_i16 data (i + 1 + 4 + 2 + 2) (by omega)) _ (pipeline_scale _ _ _ _)]
  simp [parseFields, parseEnd, Except.isOk, Except.toBool]

/-- Byte width of each field type. -/
def ftSize : FType → Nat
  | FType.u8 => 1
  | FType.u16le => 2
  | FType.u32le => 4
  | FType.i16le => 2

def fieldsSize : List FieldSpec → Nat
  | [] => 0
  | f :: rest => ftSize f.type + fieldsSize rest

lemma readTyped_ok_bound (t : FType) (data : List Nat) (i : Nat) (raw : Int) (i' : Nat)
    (h : readTyped t data i = Except.ok (raw, i')) :
    i' = i + ftSize t ∧ i + ftSize t ≤ data.length := by
  cases t <;> (unfold readTyped at h; split_ifs at h <;> simp_all [ftSize])

lemma parseFields_ok_end :
    ∀ (fields : List FieldSpec) (data : List Nat) (i : Nat) (row : Row) (i' : Nat),
      parseFields fields data i = Except.ok (row, i') →
      i' = i + fieldsSize fields ∧ (fields = [] ∨ i + fieldsSize fields ≤ data.length) := by
  intro fields
  induction fields with
  | nil =>
    intro data i row i' h
    simp [parseFields] at h
    exact ⟨by simp [fieldsSize, h.2], Or.inl rfl⟩
  | cons f rest ih =>
    intro data i row i' h
    unfold parseFields at h
    split at h
    · exact absurd h (by simp)
    · rename_i raw j heq
      split at h
      · exact absurd h (by simp)
      · rename_i v hv
        split at h
        · exact absurd h (by simp)
        · rename_i row2 i2 hrest
          simp only [Except.ok.injEq, Prod.mk.injEq] at h
          obtain ⟨hj, hjb⟩ := readTyped_ok_bound f.type data i raw j heq
          obtain ⟨h1, h2⟩ := ih data j row2 i2 hrest
          have hi' : i' = i2 := h.2.symm
          simp only [fieldsSize]
          rcases h2 with h2 | h2
          · rw [h2] at h1 ⊢
            simp [fieldsSize] at h1 ⊢
            omega
          · constructor <;> omega

lemma cssHeader_parse_shape (data : List Nat) (hdr : Row) (i0 : Nat)
    (h : parseCommonHeaderCss data = Except.ok (hdr, i0)) : i0 = 30 ∧ 30 ≤ data.length := by
  unfold parseCommonHeaderCss at h
  split_ifs at h with h26
  · obtain ⟨h1, h2⟩ := parseFields_ok_end cssHeaderFields data 26 hdr i0 h
    rcases h2 with h2 | h2
    · exact absurd h2 (by simp [cssHeaderFields])
    · simp [cssHeaderFields, fieldsSize, ftSize] at h1 h2
      omega

lemma cssSegLoop_le (data : List Nat) (hdr : Row) :
    ∀ (k i : Nat), (cssSegLoop data hdr k i).length ≤ k := by
  intro k
  induction k with
  | zero => intro i; simp [cssSegLoop]
  | succ k ih =>
    intro i
    by_cases hrem : data.length - i < 11
    · simp [cssSegLoop, hrem]
    · simp only [cssSegLoop, if_neg hrem]
      cases hp : parseFields cssSegmentFields data i with
      | error e => exact le_trans (ih _) (Nat.le_succ k)
      | ok pr =>
        obtain ⟨row, i'⟩ := pr
        simpa using Nat.succ_le_succ (ih i')

lemma cssSegLoop_len_eq (data : List Nat) (hb : ∀ b ∈ data, b < 256) (hdr : Row) :
    ∀ (k i : Nat), i ≤ data.length →
      (cssSegLoop data hdr k i).length = min k ((data.length - i) / 11) := by
  intro k
  induction k with
  | zero => intro i _; simp [cssSegLoop]
  | succ k ih =>
    intro i hi
    by_cases hrem : data.length - i < 11
    · simp only [cssSegLoop, if_pos hrem, List.length_nil]
      have hz : (data.length - i) / 11 = 0 := Nat.div_eq_of_lt hrem
      omega
    · have h11 : i + 11 ≤ data.length := by omega
      obtain ⟨hok, hend⟩ := cssSegment_parse_ok data hb i h11
      simp only [cssSegLoop, if_neg hrem]
      cases hp : parseFields cssSegmentFields data i with
      | error e => rw [hp] at hok; simp [Except.isOk, Except.toBool] at hok
      | ok pr =>
        obtain ⟨row, i'⟩ := pr
        have hi' : i' = i + 11 := by rw [hp] at hend; simpa [parseEnd] using hend
        subst hi'
        simp only [List.length_cons]
        rw [ih (i + 11) (by omega)]
        have hdiv : (data.length - i) / 11 = (data.length - (i + 11)) / 11 + 1 := by omega
        omega

/-! ## Claim C3 -/

/-- C3: for every payload (byte list with byte values < 256, as produced by
`_normalize_hex`), the CSS-vector decode returns at most
`N = Number_of_Instances` rows; `N ≤ 0` returns the empty list; and the row
count equals `min N ⌊(len − 30)/11⌋`, i.e. when `N` exceeds the instances
available in the bytes remaining after the 30-byte header, decoding stops at
the truncation point — and the decode function is total (never raises). -/
theorem C3_decode_instance_bounds (data : List Nat) (hb : ∀ b ∈ data, b < 256) :
    (cssDecodeBytes data).length ≤ (cssNumInstances data).toNat ∧
    (cssNumInstances data ≤ 0 → cssDecodeBytes data = []) ∧
    (cssDecodeBytes data).length =
      min (cssNumInstances data).toNat ((data.length - 30) / 11) := by
  unfold cssDecodeBytes cssNumInstances
  cases hh : parseCommonHeaderCss data with
  | error e => simp
  | ok pr =>
    obtain ⟨hdr, i0⟩ := pr
    obtain ⟨hi0, hlen⟩ := cssHeader_parse_shape data hdr i0 hh
    subst hi0
    dsimp only
    by_cases hcnt : pyIntOf ((hdr.lookup "Number_of_Instances").getD (PyVal.int 0)) ≤ 0
    · simp [hcnt, Int.toNat_of_nonpos hcnt]
    · rw [if_neg hcnt]
      have hloop := cssSegLoop_len_eq data hb hdr
        (pyIntOf ((hdr.lookup "Number_of_Instances").getD (PyVal.int 0))).toNat 30 hlen
      refine ⟨?_, ?_, hloop⟩
      · rw [hloop]; exact Nat.min_le_left _ _
      · intro hc; exact absurd hc hcnt

/-- Concrete payload for the C3 witness: header (26 skip bytes,
Submodule 1, Queue 7, `Number_of_Instances = 3`) followed by only 27 bytes —
room for just 2 of the 3 declared instances. -/
def exampleCssPayload : List Nat :=
  List.replicate 26 0 ++ [1, 7, 3, 0] ++ List.replicate 27 1

/-- Witness for `C3_decode_instance_bounds`: 3 instances declared, 2 decoded. -/
theorem C3_decode_instance_bounds_witness :
    (∀ b ∈ exampleCssPayload, b < 256) ∧
    ((cssDecodeBytes exampleCssPayload).length ≤ (cssNumInstances exampleCssPayload).toNat ∧
     (cssNumInstances exampleCssPayload ≤ 0 → cssDecodeBytes exampleCssPayload = []) ∧
     (cssDecodeBytes exampleCssPayload).length =
       min (cssNumInstances exampleCssPayload).toNat ((exampleCssPayload.length - 30) / 11)) :=
  ⟨by decide, C3_decode_instance_bounds exampleCssPayload (by decide)⟩

/-! ## Claim C4 -/

/-- C4 (counterexample): on the odd-length hex input `"abc"` the decode
operation does **not** fail — `_normalize_hex` raises the odd-length
`ValueError`, but `_decode_from_spec` catches it and returns the ordinary
empty row list, indistinguishable from a normal zero-instance decode. -/
theorem C4_odd_hex_counterexample :
    pyStripWs ['a', 'b', 'c'] = ['a', 'b', 'c'] ∧
    normalizeHex ['a', 'b', 'c'] = Except.error "Hex string has odd length" ∧
    HEALTH_ADCS_CSS_VECTOR ['a', 'b', 'c'] = [] :=
  ⟨rfl, rfl, rfl⟩

/-- C4 (amended): for every input whose whitespace-stripped form has odd
length, `_normalize_hex` raises the odd-length `InputError` (`ValueError`),
but the decode operation `_decode_from_spec` catches it and returns the empty
row list instead of propagating the error. -/
theorem C4_odd_hex_rejected (s : List Char) (h : (pyStripWs s).length % 2 = 1) :
    normalizeHex s = Except.error "Hex string has odd length" ∧
    HEALTH_ADCS_CSS_VECTOR s = [] := by
  have hne : (pyStripWs s).length % 2 ≠ 0 := by omega
  refine ⟨?_, ?_⟩
  · unfold normalizeHex
    rw [if_pos hne]
  · unfold HEALTH_ADCS_CSS_VECTOR normalizeHex
    rw [if_pos hne]

/-- Witness for `C4_odd_hex_rejected` at the input `"abc"`. -/
theorem C4_odd_hex_rejected_witness :
    (pyStripWs ['a', 'b', 'c']).length % 2 = 1 ∧
    (normalizeHex ['a', 'b', 'c'] = Except.error "Hex string has odd length" ∧
     HEALTH_ADCS_CSS_VECTOR ['a', 'b', 'c'] = []) :=
  ⟨by decide, C4_odd_hex_rejected ['a', 'b', 'c'] (by decide)⟩

/-! ## Claim C5 — `HEALTH_EPS_SES_TEMP._apply_transform` -/

/-- `HEALTH_EPS_SES_TEMP.py: _apply_transform(val, transform)`.
`EPOCH64_TO_UTC_DATETIME`: the all-ones sentinel becomes `None`, every other
value goes through `datetime.fromtimestamp(int(val), tz=utc)` (which raises
for epochs beyond the representable datetime range).
`TEMP_U8_255_INVALID_AS_INT8`: 255 becomes `None`, other byte values are
reinterpreted via `struct.unpack("<b", bytes([int(val)]))` (and `bytes([v])`
itself raises outside 0…255).  Any other transform name raises
`"Unsupported transform"`; `transform=None` returns the value unchanged. -/
def epsApplyTransform (val : Int) (transform : Option String) : Except String PyVal :=
  match transform with
  | Option.none => Except.ok (PyVal.int val)
  | some t =>
    if t = "EPOCH64_TO_UTC_DATETIME" then
      if val = 0xFFFFFFFFFFFFFFFF then Except.ok PyVal.none
      else fromtimestampUTC val
    else if t = "TEMP_U8_255_INVALID_AS_INT8" then
      if val = 255 then Except.ok PyVal.none
      else if 0 ≤ val ∧ val < 256
        then Except.ok (PyVal.int (if val < 128 then val else val - 256))
        else Except.error "bytes must be in range(0, 256)"
    else Except.error "Unsupported transform"

/-- C5 (counterexample): `0xFFFFFFFFFFFFFFFE` is not the sentinel, yet
`EPOCH64_TO_UTC_DATETIME` does not map it to a UTC datetime — CPython's
`datetime.fromtimestamp` raises because the epoch lies beyond year 9999, and
the per-segment exception handler then drops the row. -/
theorem C5_epoch64_overflow_counterexample :
    (0xFFFFFFFFFFFFFFFE : Int) ≠ 0xFFFFFFFFFFFFFFFF ∧
    epsApplyTransform 0xFFFFFFFFFFFFFFFE (some "EPOCH64_TO_UTC_DATETIME") =
      Except.error "timestamp out of range" :=
  ⟨by decide, rfl⟩

/-- C5 (amended): `EPOCH64_TO_UTC_DATETIME` maps the sentinel
`0xFFFFFFFFFFFFFFFF` to null, every other epoch in the representable
datetime range (≤ 253402300799, year 9999) to the corresponding aware UTC
datetime, and raises on larger values; `TEMP_U8_255_INVALID_AS_INT8` maps
byte 255 to null and every other byte 0…254 to its signed int8
reinterpretation (`v` if `v < 128`, else `v − 256`). -/
theorem C5_transform_boundaries (val : Int) :
    (epsApplyTransform 0xFFFFFFFFFFFFFFFF (some "EPOCH64_TO_UTC_DATETIME") =
      Except.ok PyVal.none) ∧
    (0 ≤ val → val ≠ 0xFFFFFFFFFFFFFFFF → val ≤ 253402300799 →
      epsApplyTransform val (some "EPOCH64_TO_UTC_DATETIME") = Except.ok (PyVal.dt val)) ∧
    (253402300799 < val → val ≠ 0xFFFFFFFFFFFFFFFF →
      epsApplyTransform val (some "EPOCH64_TO_UTC_DATETIME") =
        Except.error "timestamp out of range") ∧
    (epsApplyTransform 255 (some "TEMP_U8_255_INVALID_AS_INT8") = Except.ok PyVal.none) ∧
    (0 ≤ val → val < 256 → val ≠ 255 →
      epsApplyTransform val (some "TEMP_U8_255_INVALID_AS_INT8") =
        Except.ok (PyVal.int (if val < 128 then val else val - 256))) := by
  refine ⟨rfl, ?_, ?_, rfl, ?_⟩
  · intro h0 hs hb
    simp only [epsApplyTransform, if_neg hs, fromtimestampUTC]
    rw [if_pos (show (-62135596800 : Int) ≤ val ∧ val ≤ 253402300799 from ⟨by omega, hb⟩)]
    simp
  · intro hb hs
    simp only [epsApplyTransform, if_neg hs, fromtimestampUTC]
    rw [if_neg (show ¬((-62135596800 : Int) ≤ val ∧ val ≤ 253402300799) by omega)]
    simp
  · intro h0 hlt hs
    simp only [epsApplyTransform, if_neg hs]
    rw [if_pos (show (0 : Int) ≤ val ∧ val < 256 from ⟨h0, hlt⟩)]
    simp

/-! ## Alert engine: `alert_builder/alert_logic.py`

Python floats are modelled exactly by rationals; `round(x, 2)` is
round-half-to-even at two decimals (exact on the rational value — binary
float representation error in ties is not modelled).  Thresholds come from
the JSON config (`{yellow_percent, amber_percent, red_percent}`). -/

inductive Severity where
  | RED | AMBER | YELLOW
deriving DecidableEq, Repr

structure Thresholds where
  red_percent : Rat
  amber_percent : Rat
  yellow_percent : Rat
deriving DecidableEq, Repr

/-- Python `round` to an integer: nearest, ties to even. -/
def roundHalfEven (x : Rat) : Int :=
  let f := ⌊x⌋
  if x - f < 1 / 2 then f
  else if x - f > 1 / 2 then f + 1
  else if f % 2 = 0 then f else f + 1

/-- Python `round(x, 2)`. -/
def round2 (x : Rat) : Rat := (roundHalfEven (100 * x) : Rat) / 100

/-- `alert_logic.py: evaluate_metric`.  The source writes its guards as
`min_v is not None and value < min_v`, `max_v is not None and value > max_v`,
then `min_v is None or max_v is None or max_v == min_v → None`; the top-level
match below enumerates the same four `(min_v, max_v)` shapes with identical
results in each. -/
def evaluate_metric (metric : String) (value : Rat) (min_v max_v : Option Rat)
    (th : Thresholds) : Option (Severity × Rat × String) :=
  match min_v, max_v with
  | Option.none, Option.none => Option.none
  | Option.none, some M =>
    if value > M then some (Severity.RED, 100, "Value above maximum limit") else Option.none
  | some m, Option.none =>
    if value < m then some (Severity.RED, 100, "Value below minimum limit") else Option.none
  | some m, some M =>
    if value < m then some (Severity.RED, 100, "Value below minimum limit")
    else if value > M then some (Severity.RED, 100, "Value above maximum limit")
    else if M = m then Option.none
    else
      let range_v := M - m
      let distance_to_limit := min (value - m) (M - value)
      let percent_used := round2 (100 * (1 - distance_to_limit / range_v))
      if percent_used ≥ th.red_percent then
        some (Severity.RED, percent_used, "Reached 100% operational limit")
      else if percent_used ≥ th.amber_percent then
        some (Severity.AMBER, percent_used, "Above 90% operational limit")
      else if percent_used ≥ th.yellow_percent then
        some (Severity.YELLOW, percent_used, "Above 80% operational limit")
      else Option.none

structure Limits where
  min : Option Rat
  max : Option Rat
deriving DecidableEq, Repr

/-- One entry of the config index built by `build_config_index`
(keyed by `queue_id`). -/
structure PacketCfg where
  packet_name : String
  thresholds : Option Thresholds
  metrics : List (String × Limits)
deriving DecidableEq, Repr

/-- One decoded instance row as `evaluate_tm` reads it: `Queue_ID` after the
`int(…)` conversion (`none` when that raises and the row is skipped),
`Submodule_ID` as a string, and the numeric metric cells. -/
structure TmInstance where
  queue_id : Option Int
  submodule_id : String
  values : List (String × Rat)
deriving DecidableEq, Repr

structure TmMessage where
  timestamp : Option String
  packet_name : String
  data : List TmInstance
deriving DecidableEq, Repr

structure Alert where
  timestamp : Option String
  raw_packet_name : String
  matched_packet_name : String
  submodule_id : String
  submodule_name : String
  queue_id : Int
  metric : String
  value : Rat
  min : Option Rat
  max : Option Rat
  severity : Severity
  severity_percent : Rat
  reason : String
  status : String
deriving DecidableEq, Repr

/-- `alert_logic.py: evaluate_tm`: per instance, resolve `Queue_ID` in the
config index (skipping unparsable or unconfigured rows), use the per-packet
thresholds when present (else global), and emit one alert per configured
metric present in the row for which `evaluate_metric` fires. -/
def evaluate_tm (msg : TmMessage) (cfgIndex : List (Int × PacketCfg))
    (th : Thresholds) (submoduleIndex : List (String × String)) : List Alert :=
  msg.data.flatMap (fun inst =>
    match inst.queue_id with
    | Option.none => []
    | some qid =>
      match cfgIndex.lookup qid with
      | Option.none => []
      | some cfg =>
        let activeTh := cfg.thresholds.getD th
        cfg.metrics.flatMap (fun ml =>
          match inst.values.lookup ml.1 with
          | Option.none => []
          | some v =>
            match evaluate_metric ml.1 v ml.2.min ml.2.max activeTh with
            | Option.none => []
            | some (sev, pct, reason) =>
              [{ timestamp := msg.timestamp
                 raw_packet_name := msg.packet_name
                 matched_packet_name := cfg.packet_name
                 submodule_id := inst.submodule_id
                 submodule_name := ((submoduleIndex.lookup inst.submodule_id).getD
                   ("Submodule_" ++ inst.submodule_id))
                 queue_id := qid
                 metric := ml.1
                 value := v
                 min := ml.2.min
                 max := ml.2.max
                 severity := sev
                 severity_percent := pct
                 reason := reason
                 status := "alert_identified" }]))

/-! ## Claim C6 -/

/-- C6 (counterexample): the code rounds `percent_used` to two decimals
(`round(…, 2)`), so with bounds (0, 3) and value 1/2 the emitted percent is
83.33, not the claim's exact `100·(1 − distance/range) = 250/3`. -/
theorem C6_percent_rounding_counterexample :
    evaluate_metric "Sun_Vector_Z" (1/2 : Rat) (some 0) (some 3) ⟨100, 90, 80⟩ =
      some (Severity.YELLOW, 8333/100, "Above 80% operational limit") ∧
    (8333/100 : Rat) ≠ 100 * (1 - min ((1 : Rat)/2 - 0) (3 - 1/2) / (3 - 0)) := by
  have hfloor : ⌊(25000 : Rat) / 3⌋ = 8333 := by
    rw [Int.floor_eq_iff]
    constructor <;> norm_num
  have hmin : min ((1 : Rat)/2 - 0) (3 - 1/2) = 1/2 - 0 := by
    rw [min_eq_left]
    norm_num
  have hround : round2 (100 * (1 - min ((1 : Rat)/2 - 0) (3 - 1/2) / (3 - 0))) = 8333/100 := by
    rw [hmin]
    unfold round2 roundHalfEven
    have harg : (100 : Rat) * (100 * (1 - ((1 : Rat)/2 - 0) / (3 - 0))) = 25000/3 := by norm_num
    rw [harg, hfloor]
    norm_num
  refine ⟨?_, by rw [hmin]; norm_num⟩
  simp only [evaluate_metric]
  rw [if_neg (by norm_num), if_neg (by norm_num), if_neg (by norm_num), hround]
  rw [if_neg (by norm_num), if_neg (by norm_num), if_pos (by norm_num)]

/-- C6 (amended): with both bounds configured, a value below min or above max
yields RED with `percent_used = 100`; with `max = min` (and the value inside
the bounds) no alert; otherwise `percent_used =
round(100·(1 − min(v−min, max−v)/(max−min)), 2)` and the severity cascade is
RED ≥ red_percent, AMBER ≥ amber_percent, YELLOW ≥ yellow_percent, else no
alert — exactly the claim with the 2-decimal rounding added. -/
theorem C6_evaluate_metric_formula (metric : String) (v m M : Rat) (th : Thresholds) :
    (v < m → evaluate_metric metric v (some m) (some M) th =
      some (Severity.RED, 100, "Value below minimum limit")) ∧
    (m ≤ v → M < v → evaluate_metric metric v (some m) (some M) th =
      some (Severity.RED, 100, "Value above maximum limit")) ∧
    (m ≤ v → v ≤ M → M = m → evaluate_metric metric v (some m) (some M) th = Option.none) ∧
    (m ≤ v → v ≤ M → M ≠ m →
      evaluate_metric metric v (some m) (some M) th =
        (let percent_used := round2 (100 * (1 - min (v - m) (M - v) / (M - m)))
         if th.red_percent ≤ percent_used then
           some (Severity.RED, percent_used, "Reached 100% operational limit")
         else if th.amber_percent ≤ percent_used then
           some (Severity.AMBER, percent_used, "Above 90% operational limit")
         else if th.yellow_percent ≤ percent_used then
           some (Severity.YELLOW, percent_used, "Above 80% operational limit")
         else Option.none)) := by
  refine ⟨?_, ?_, ?_, ?_⟩
  · intro h
    simp [evaluate_metric, h]
  · intro h1 h2
    simp [evaluate_metric, not_lt.mpr h1, h2]
  · intro h1 h2 h3
    subst h3
    simp [evaluate_metric, not_lt.mpr h1, not_lt.mpr h2]
  · intro h1 h2 h3
    simp [evaluate_metric, not_lt.mpr h1, not_lt.mpr h2, h3, ge_iff_le]

/-- The severity that `evaluate_metric` assigns is the one its threshold
cascade dictates: RED on hard limit violation (percent 100) or when the
percent reaches `red_percent`; AMBER when it reaches `amber_percent` but not
`red_percent`; YELLOW when it reaches only `yellow_percent`. -/
def sevConsistent (th : Thresholds) (sev : Severity) (pct : Rat) : Prop :=
  (sev = Severity.RED ∧ (pct = 100 ∨ th.red_percent ≤ pct)) ∨
  (sev = Severity.AMBER ∧ th.amber_percent ≤ pct ∧ pct < th.red_percent) ∨
  (sev = Severity.YELLOW ∧ th.yellow_percent ≤ pct ∧ pct < th.amber_percent ∧
    pct < th.red_percent)

lemma evaluate_metric_emitted (metric : String) (v : Rat) (min_v max_v : Option Rat)
    (th : Thresholds) (sev : Severity) (pct : Rat) (r : String)
    (h : evaluate_metric metric v min_v max_v th = some (sev, pct, r)) :
    sevConsistent th sev pct ∧
    (pct = 100 ∨ th.red_percent ≤ pct ∨ th.amber_percent ≤ pct ∨ th.yellow_percent ≤ pct) := by
  cases min_v with
  | none =>
    cases max_v with
    | none => simp [evaluate_metric] at h
    | some M =>
      unfold evaluate_metric at h
      dsimp only at h
      split_ifs at h <;> simp_all [sevConsistent]
  | some m =>
    cases max_v with
    | none =>
      unfold evaluate_metric at h
      dsimp only at h
      split_ifs at h <;> simp_all [sevConsistent]
    | some M =>
      unfold evaluate_metric at h
      dsimp only at h
      split_ifs at h <;> simp_all [sevConsistent] <;> tauto

lemma lookupMem {β : Type} : ∀ (l : List (Int × β)) (k : Int) (v : β),
    l.lookup k = some v → (k, v) ∈ l := by
  intro l
  induction l with
  | nil => intro k v h; simp [List.lookup] at h
  | cons p rest ih =>
    intro k v h
    obtain ⟨a, b⟩ := p
    unfold List.lookup at h
    cases hk : (k == a) with
    | true =>
      rw [hk] at h
      simp only [Option.some.injEq] at h
      simp only [beq_iff_eq] at hk
      subst hk
      subst h
      exact List.mem_cons_self _ _
    | false =>
      rw [hk] at h
      exact List.mem_cons_of_mem _ (ih k v h)

/-- C7 (amended): for **every** threshold configuration, every alert emitted
by `evaluate_tm` is consistent with its own active thresholds — those of the
config entry registered under the alert's `queue_id` (the per-packet override
when configured, else the global thresholds): its severity follows the
cascade (`sevConsistent`), and its `severity_percent` is 100 (hard limit
violation) or reaches at least one of the active red/amber/yellow levels.
Consequently, whenever those active levels are all ≥ 80 — the spec's global
config is (80, 90, 100) — the alert's `severity_percent` is ≥ 80. -/
theorem C7_alert_threshold_floor (msg : TmMessage) (cfgIndex : List (Int × PacketCfg))
    (th : Thresholds) (smi : List (String × String)) :
    ∀ a ∈ evaluate_tm msg cfgIndex th smi,
      ∃ cfg : PacketCfg,
        cfgIndex.lookup a.queue_id = some cfg ∧
        sevConsistent (cfg.thresholds.getD th) a.severity a.severity_percent ∧
        (a.severity_percent = 100 ∨
          (cfg.thresholds.getD th).red_percent ≤ a.severity_percent ∨
          (cfg.thresholds.getD th).amber_percent ≤ a.severity_percent ∨
          (cfg.thresholds.getD th).yellow_percent ≤ a.severity_percent) ∧
        (80 ≤ (cfg.thresholds.getD th).red_percent →
          80 ≤ (cfg.thresholds.getD th).amber_percent →
          80 ≤ (cfg.thresholds.getD th).yellow_percent →
          80 ≤ a.severity_percent) := by
  intro a ha
  unfold evaluate_tm at ha
  rw [List.mem_flatMap] at ha
  obtain ⟨inst, hinst, ha⟩ := ha
  cases hq : inst.queue_id with
  | none => rw [hq] at ha; simp at ha
  | some qid =>
    rw [hq] at ha
    dsimp only at ha
    cases hcf : cfgIndex.lookup qid with
    | none => rw [hcf] at ha; simp at ha
    | some cfg =>
      rw [hcf] at ha
      dsimp only at ha
      rw [List.mem_flatMap] at ha
      obtain ⟨ml, hml, ha⟩ := ha
      cases hv : inst.values.lookup ml.1 with
      | none => rw [hv] at ha; simp at ha
      | some v =>
        rw [hv] at ha
        dsimp only at ha
        cases hev : evaluate_metric ml.1 v ml.2.min ml.2.max (cfg.thresholds.getD th) with
        | none => rw [hev] at ha; simp at ha
        | some trip =>
          obtain ⟨sev, pct, r⟩ := trip
          rw [hev] at ha
          dsimp only at ha
          simp only [List.mem_singleton] at ha
          subst ha
          obtain ⟨hcons, hfloor⟩ :=
            evaluate_metric_emitted ml.1 v ml.2.min ml.2.max (cfg.thresholds.getD th)
              sev pct r hev
          refine ⟨cfg, hcf, hcons, hfloor, ?_⟩
          intro h1 h2 h3
          show 80 ≤ pct
          rcases hfloor with h | h | h | h
          · rw [h]; norm_num
          · exact le_trans h1 h
          · exact le_trans h2 h
          · exact le_trans h3 h

def c7Inst : TmInstance := ⟨some 7, "1", [("Sun_Vector_Z", 1)]⟩

def c7Cfg : PacketCfg :=
  ⟨"HEALTH_ADCS_CSS_VECTOR", Option.none, [("Sun_Vector_Z", ⟨some 0, some 4⟩)]⟩

def c7Msg : TmMessage :=
  ⟨some "2026-01-09T08:55:28Z", "RAW__TLM__EMULATOR__HEALTH_ADCS_CSS_VECTOR", [c7Inst]⟩

/-- A legal threshold configuration with `yellow_percent = 50`. -/
def c7ThLow : Thresholds := ⟨100, 90, 50⟩


lemma c7_eval_metric_low :
    evaluate_metric "Sun_Vector_Z" 1 (some 0) (some 4) c7ThLow =
      some (Severity.YELLOW, 75, "Above 80% operational limit") := by
  have hmin : min ((1 : Rat) - 0) (4 - 1) = (1 : Rat) - 0 := by
    rw [min_eq_left]
    norm_num
  have hf : ⌊(7500 : Rat)⌋ = 7500 := by
    rw [Int.floor_eq_iff]
    constructor <;> norm_num
  have h75 : round2 (100 * (1 - min ((1 : Rat) - 0) (4 - 1) / (4 - 0))) = 75 := by
    rw [hmin]
    unfold round2 roundHalfEven
    have harg : (100 : Rat) * (100 * (1 - ((1 : Rat) - 0) / (4 - 0))) = 7500 := by norm_num
    rw [harg, hf]
    norm_num
  unfold evaluate_metric c7ThLow
  dsimp only
  rw [if_neg (by norm_num), if_neg (by norm_num), if_neg (by norm_num)]
  rw [h75]
  rw [if_neg (by norm_num), if_neg (by norm_num), if_pos (by norm_num)]

/-- C7 (counterexample): under the legal threshold configuration
`{red: 100, amber: 90, yellow: 50}`, a row value 1 with bounds (0, 4) emits a
YELLOW alert whose `severity_percent` is 75 — below 80. -/
theorem C7_severity_floor_counterexample :
    (evaluate_tm c7Msg [(7, c7Cfg)] c7ThLow []).map Alert.severity_percent = [75] ∧
    ¬(80 ≤ (75 : Rat)) := by
  constructor
  · simp [evaluate_tm, c7Msg, c7Inst, c7Cfg, List.lookup, c7_eval_metric_low]
  · norm_num

/-- The alert that `evaluate_tm` emits in the `c7ThLow` counterexample
configuration. -/
def c7Alert : Alert :=
  { timestamp := some "2026-01-09T08:55:28Z"
    raw_packet_name := "RAW__TLM__EMULATOR__HEALTH_ADCS_CSS_VECTOR"
    matched_packet_name := "HEALTH_ADCS_CSS_VECTOR"
    submodule_id := "1"
    submodule_name := "Submodule_1"
    queue_id := 7
    metric := "Sun_Vector_Z"
    value := 1
    min := some 0
    max := some 4
    severity := Severity.YELLOW
    severity_percent := 75
    reason := "Above 80% operational limit"
    status := "alert_identified" }

lemma c7_eval_tm_low :
    evaluate_tm c7Msg [((7 : Int), c7Cfg)] c7ThLow [] = [c7Alert] := by
  simp [evaluate_tm, c7Msg, c7Inst, c7Cfg, c7Alert, List.lookup, c7_eval_metric_low]

/-- Witness for `C7_alert_threshold_floor`, applied at the `yellow = 50`
configuration of the counterexample: the emitted 75% YELLOW alert is indeed
consistent with its active thresholds (the global `c7ThLow` — its packet
config has no override), its percent reaches the active yellow level, and
the ≥ 80 floor clause is inapplicable there because the active yellow level
is 50. -/
theorem C7_alert_threshold_floor_witness :
    c7Alert ∈ evaluate_tm c7Msg [((7 : Int), c7Cfg)] c7ThLow [] ∧
    ∃ cfg : PacketCfg,
      ([((7 : Int), c7Cfg)]).lookup c7Alert.queue_id = some cfg ∧
      sevConsistent (cfg.thresholds.getD c7ThLow) c7Alert.severity c7Alert.severity_percent ∧
      (c7Alert.severity_percent = 100 ∨
        (cfg.thresholds.getD c7ThLow).red_percent ≤ c7Alert.severity_percent ∨
        (cfg.thresholds.getD c7ThLow).amber_percent ≤ c7Alert.severity_percent ∨
        (cfg.thresholds.getD c7ThLow).yellow_percent ≤ c7Alert.severity_percent) ∧
      (80 ≤ (cfg.thresholds.getD c7ThLow).red_percent →
        80 ≤ (cfg.thresholds.getD c7ThLow).amber_percent →
        80 ≤ (cfg.thresholds.getD c7ThLow).yellow_percent →
        80 ≤ c7Alert.severity_percent) :=
  ⟨by rw [c7_eval_tm_low]; exact List.mem_singleton_self _,
   C7_alert_threshold_floor c7Msg [((7 : Int), c7Cfg)] c7ThLow [] c7Alert
     (by rw [c7_eval_tm_low]; exact List.mem_singleton_self _)⟩

/-! ## Health Consumer: `services/health_consumer.py _on_message` (claim C8)

The callback's control flow is embedded as a function from the outcome of
each fallible step to its externally visible effects.  Crucially, the source
contains *duplicated* `except` clauses for the buffer-conversion, the
decoder-lookup (`except DecoderNotFound`) and the decoder-run `try` blocks:
Python dispatches to the first matching clause only, so the second clause of
each pair — the one that acks and returns — is dead code.  The live first
clauses merely log and fall through, after which the function reads a local
that was never assigned (`decoder_fn` / `hex_str` / `segments`) and raises
an uncaught `UnboundLocalError`.  The module also no longer has any database
client ("DB Client removed to decouple service"), so nothing can write to
the `DECODER_NOT_FOUND` sink that `db_client.insert_decoder_not_found`
serves. -/

structure HCMsg where
  jsonOk : Bool
  packetName : String
  bufferPresent : Bool
  b64Ok : Bool
  decoderFound : Bool
  decodeOk : Bool
  segments : List Row
  publishOk : Bool
deriving DecidableEq, Repr

structure HCOutcome where
  acked : Bool
  published : Bool
  notFoundRows : Nat
  failedRows : Nat
  uncaught : Bool
deriving DecidableEq, Repr

/-- `HealthConsumerService._on_message`. -/
def onHealthMessage (m : HCMsg) : HCOutcome :=
  if !m.jsonOk then
    -- json.loads failed: log, ack, return
    ⟨true, false, 0, 0, false⟩
  else if !m.bufferPresent then
    -- missing 'buffer': log, ack, return
    ⟨true, false, 0, 0, false⟩
  else if !m.b64Ok then
    -- _decode_buffer_to_hex raised: the FIRST except clause only logs (its
    -- duplicate that would ack+return is unreachable); execution continues,
    -- `decoder_fn(hex_str)` raises UnboundLocalError (caught, logged), then
    -- `if not segments:` raises UnboundLocalError uncaught — no ack
    ⟨false, false, 0, 0, true⟩
  else if !m.decoderFound then
    -- DecoderNotFound: the FIRST except clause only logs; nothing is written
    -- to DECODER_NOT_FOUND; the later use of the unbound `decoder_fn` ends in
    -- an uncaught UnboundLocalError — no ack
    ⟨false, false, 0, 0, true⟩
  else if !m.decodeOk then
    -- decoder raised: FIRST except clause logs; `if not segments:` then
    -- raises UnboundLocalError uncaught — no ack
    ⟨false, false, 0, 0, true⟩
  else if m.segments.isEmpty then
    -- "Decoder returned no segments": ack, return
    ⟨true, false, 0, 0, false⟩
  else
    -- publish decoded payload (a publish failure is caught and only logged),
    -- then ack
    ⟨true, m.publishOk, 0, 0, false⟩

/-- Scenario S5's failing input: a well-formed message whose packet name has
no decoder module. -/
def c8Msg : HCMsg :=
  ⟨true, "RAW__TLM__EMULATOR__HEALTH_UNKNOWN_X", true, true, false, false, [], true⟩

/-! ## Claim C8 -/

/-- C8 (code evaluated at the failing input): when no decoder schema exists,
`_on_message` records **zero** rows on the decoder-not-found sink, does
**not** ack the message, and lets an `UnboundLocalError` escape the callback
— against the spec's S5 (one `DECODER_NOT_FOUND` row, message acked), whose
intent the code itself documents in its dead duplicate `except` clause and in
`db_client.insert_decoder_not_found`. -/
theorem C8_decoder_not_found_divergence :
    onHealthMessage c8Msg =
      { acked := false, published := false, notFoundRows := 0, failedRows := 0,
        uncaught := true } ∧
    ∀ m : HCMsg, (onHealthMessage m).notFoundRows = 0 := by
  constructor
  · rfl
  · intro m
    unfold onHealthMessage
    split_ifs <;> rfl

/-! ## Bridge downlink: `app/mqtt_bridge.py on_message_b` (claim C9) -/

/-- Result of steps 1–2 of `on_message_b` (`json.loads` + `obj["message"]` +
`base64.b64decode`), modelled abstractly: either the encrypted frame bytes or
a failure. -/
inductive B64Parse where
  | ok (encBytes : List Nat)
  | fail
deriving DecidableEq, Repr

structure DownlinkMsg where
  payload : List Nat
  parse : B64Parse
deriving DecidableEq, Repr

/-- Steps 1–5 of the `try` block: parse, base64-decode, hex-encode, decrypt
with `decrypt_tm_frame` (byte-level; the hex conversions are identities),
hex-decode.  Any failure yields `none` (`raw = None`). -/
def downlinkDecrypt (p : B64Parse) : Option (List Nat) :=
  match p with
  | B64Parse.fail => Option.none
  | B64Parse.ok enc =>
    match decrypt_tm_frame enc with
    | Except.ok raw => some raw
    | Except.error _ => Option.none

structure BridgeEffects where
  rxBumped : Bool
  publishedToA : Option (List Nat)
  txBumped : Bool
  downlinkLogged : Option (List Nat)
  telemetryLogged : Option (List Nat)
deriving DecidableEq, Repr

/-- `on_message_b`: the rx counter is always bumped; on success the decrypted
bytes are published to COSMOS telemetry and the tx counter bumped; the
inbound payload is always logged on `SatOS/downlink`; the decrypted bytes are
logged on `cosmos/telemetry` only when `raw` is truthy (non-`None` and
non-empty, because `if raw:` is false on `b""`). -/
def onMessageB (m : DownlinkMsg) : BridgeEffects :=
  let raw := downlinkDecrypt m.parse
  { rxBumped := true
    publishedToA := raw
    txBumped := raw.isSome
    downlinkLogged := some m.payload
    telemetryLogged :=
      match raw with
      | some r => if r.isEmpty then Option.none else some r
      | Option.none => Option.none }

/-! ## Claim C9 -/

/-- C9: for every downlink message whose processing fails (bad JSON, bad
base64, or a decryption error), nothing is published to the A-side telemetry
topic (and no telemetry row is logged), but the inbound message is still
written to the SatOS/downlink station log (and the rx counter still bumped). -/
theorem C9_downlink_failure_drops_publish (m : DownlinkMsg)
    (h : downlinkDecrypt m.parse = Option.none) :
    (onMessageB m).publishedToA = Option.none ∧
    (onMessageB m).telemetryLogged = Option.none ∧
    (onMessageB m).downlinkLogged = some m.payload ∧
    (onMessageB m).rxBumped = true := by
  simp [onMessageB, h]

/-- Witness for `C9_downlink_failure_drops_publish`: a downlink whose
base64 payload decodes to a 1-byte "frame", on which `decrypt_tm_frame`
raises the TM-length error. -/
theorem C9_downlink_failure_witness :
    downlinkDecrypt (B64Parse.ok [0]) = Option.none ∧
    ((onMessageB ⟨[9, 9], B64Parse.ok [0]⟩).publishedToA = Option.none ∧
     (onMessageB ⟨[9, 9], B64Parse.ok [0]⟩).telemetryLogged = Option.none ∧
     (onMessageB ⟨[9, 9], B64Parse.ok [0]⟩).downlinkLogged = some [9, 9] ∧
     (onMessageB ⟨[9, 9], B64Parse.ok [0]⟩).rxBumped = true) :=
  ⟨rfl, C9_downlink_failure_drops_publish ⟨[9, 9], B64Parse.ok [0]⟩ rfl⟩
